import Mathlib

/-!
Verification of the consensus-parameter core of the Alterdot repository
(`src/consensus/params.h`): the parameter table (`Consensus::Params`), the
BIP9 deployment descriptors, the LLMQ quorum configuration, and the two
height-dependent epoch selectors `GetCurrentPowTargetSpacing` and
`GetCurrentMasternodeCollateral`.

C++ `int` and `int64_t` fields are embedded as `Int` (no arithmetic in the
embedded code can overflow: the selectors only compare and return stored
fields), `uint32_t` and `uint256` as `Nat`, `std::string` as `String`, and
`std::map<LLMQType, LLMQParams>` as an association list whose key
uniqueness is an invariant checked at load.
-/

namespace Consensus

/-- `enum DeploymentPos` from `src/consensus/params.h`
(`MAX_VERSION_BITS_DEPLOYMENTS` is the count of the listed positions,
represented here by the type being a closed enumeration). -/
inductive DeploymentPos where
  | DEPLOYMENT_TESTDUMMY
  | DEPLOYMENT_CSV
  | DEPLOYMENT_DIP0001
  | DEPLOYMENT_BIP147
  | DEPLOYMENT_DIP0003
  | DEPLOYMENT_DIP0008
  deriving DecidableEq

/-- All version-bits deployment positions, in declaration order. -/
def allDeploymentPositions : List DeploymentPos :=
  [.DEPLOYMENT_TESTDUMMY, .DEPLOYMENT_CSV, .DEPLOYMENT_DIP0001,
   .DEPLOYMENT_BIP147, .DEPLOYMENT_DIP0003, .DEPLOYMENT_DIP0008]

theorem mem_allDeploymentPositions (d : DeploymentPos) :
    d ∈ allDeploymentPositions := by
  cases d <;> simp [allDeploymentPositions]

/-- `struct BIP9Deployment` from `src/consensus/params.h`. -/
structure BIP9Deployment where
  bit : Int
  nStartTime : Int
  nTimeout : Int
  nWindowSize : Int
  nThreshold : Int
  deriving DecidableEq

/-- `enum LLMQType : uint8_t` from `src/consensus/params.h`. The numeric
value of each enumerator is given by `LLMQType.val`. -/
inductive LLMQType where
  | LLMQ_NONE
  | LLMQ_50_60
  | LLMQ_400_60
  | LLMQ_400_85
  | LLMQ_10_60
  | LLMQ_30_80
  | LLMQ_5_60
  deriving DecidableEq

/-- The `uint8_t` value assigned to each `LLMQType` enumerator in the
source (`LLMQ_NONE = 0xff`, `LLMQ_50_60 = 1`, `LLMQ_400_60 = 2`,
`LLMQ_400_85 = 3`, `LLMQ_10_60 = 4`, `LLMQ_30_80 = 6`, `LLMQ_5_60 = 100`). -/
def LLMQType.val : LLMQType → Nat
  | .LLMQ_NONE => 0xff
  | .LLMQ_50_60 => 1
  | .LLMQ_400_60 => 2
  | .LLMQ_400_85 => 3
  | .LLMQ_10_60 => 4
  | .LLMQ_30_80 => 6
  | .LLMQ_5_60 => 100

/-- `struct LLMQParams` from `src/consensus/params.h`. -/
structure LLMQParams where
  type : LLMQType
  name : String
  size : Int
  minSize : Int
  threshold : Int
  dkgInterval : Int
  dkgPhaseBlocks : Int
  dkgMiningWindowStart : Int
  dkgMiningWindowEnd : Int
  dkgBadVotesThreshold : Int
  signingActiveQuorumCount : Int
  keepOldConnections : Int
  deriving DecidableEq

/-- `struct Params` from `src/consensus/params.h`, with every field the
source declares (commented-out fields omitted, as in the source). The
fields carrying a C++ default member initializer (`nMinimumDifficultyBlocks{0}`,
`nHighSubsidyBlocks{0}`, `nHighSubsidyFactor{1}`, `llmqForInstantSend{LLMQ_NONE}`)
carry the same default here; `vDeployments` is the array indexed by
`DeploymentPos`. -/
structure Params where
  hashGenesisBlock : Nat
  hashDevnetGenesisBlock : Nat
  nHardForkOne : Int
  nHardForkTwo : Int
  nHardForkThree : Int
  nHardForkFour : Int
  nHardForkFive : Int
  nHardForkSix : Int
  nHardForkSeven : Int
  nHardForkEight : Int
  nTempDevFundIncreaseEnd : Int
  nSubsidyHalvingInterval : Int
  nMasternodePaymentsStartBlock : Int
  nInstantSendConfirmationsRequired : Int
  nInstantSendKeepLock : Int
  nInstantSendSigsRequired : Int
  nInstantSendSigsTotal : Int
  nBudgetPaymentsStartBlock : Int
  nBudgetPaymentsCycleBlocks : Int
  nBudgetPaymentsWindowBlocks : Int
  nSuperblockStartBlock : Int
  nSuperblockStartHash : Nat
  nSuperblockCycle : Int
  nGovernanceMinQuorum : Int
  nGovernanceFilterElements : Int
  nOldMasternodeCollateral : Int
  nNewMasternodeCollateral : Int
  nMasternodeMinimumConfirmations : Int
  DIP0001Height : Int
  nIntPhaseTotalBlocks : Int
  nBlocksPerYear : Int
  DIP0003Height : Int
  DIP0003EnforcementHeight : Int
  DIP0003EnforcementHash : Nat
  LLMQSwitchHeight : Int
  DIP0006EnforcementHeight : Int
  DIP0006EnforcementHash : Nat
  DIP0008Height : Int
  DIP0008EnforcementHeight : Int
  DIP0008EnforcementHash : Nat
  nRuleChangeActivationThreshold : Nat
  nMinerConfirmationWindow : Nat
  vDeployments : DeploymentPos → BIP9Deployment
  powLimit : Nat
  fPowAllowMinDifficultyBlocks : Bool
  fPowNoRetargeting : Bool
  nPowTargetTimespan : Int
  nPowTargetSpacing : Int
  nDifficultyAdjustmentInterval : Int
  nOldPowTargetSpacing : Int
  nNewPowTargetSpacing : Int
  nMinimumChainWork : Nat
  defaultAssumeValid : Nat
  nMinimumDifficultyBlocks : Int := 0
  nHighSubsidyBlocks : Int := 0
  nHighSubsidyFactor : Int := 1
  llmqs : List (LLMQType × LLMQParams)
  llmqChainLocks : LLMQType
  llmqForInstantSend : LLMQType := .LLMQ_NONE

/-- `Consensus::Params::GetCurrentPowTargetSpacing` from
`src/consensus/params.h` lines 213-218. -/
def Params.GetCurrentPowTargetSpacing (p : Params) (nHeight : Int) : Int :=
  if nHeight > p.nHardForkSix then
    p.nNewPowTargetSpacing
  else
    p.nOldPowTargetSpacing

/-- `Consensus::Params::GetCurrentMasternodeCollateral` from
`src/consensus/params.h` lines 220-225. -/
def Params.GetCurrentMasternodeCollateral (p : Params) (nHeight : Int) : Int :=
  if nHeight > p.nHardForkSix then
    p.nNewMasternodeCollateral
  else
    p.nOldMasternodeCollateral

end Consensus

namespace Consensus

/-- A concrete parameter table used to witness theorems with hypotheses.
The numeric values mirror the shape of a mainnet-style configuration:
a hard-fork-six height of 100000, old/new spacing 120/60 and old/new
collateral 1000/5000. -/
def sampleDeployment : BIP9Deployment :=
  { bit := 0, nStartTime := 1199145601, nTimeout := 1230767999,
    nWindowSize := 100, nThreshold := 80 }

/-- A concrete LLMQ configuration used in witnesses (the Dash `LLMQ_50_60`
shape: 50 members, 60% threshold, hourly DKG). -/
def sampleLLMQ : LLMQParams :=
  { type := .LLMQ_50_60, name := "llmq_50_60", size := 50, minSize := 40,
    threshold := 30, dkgInterval := 24, dkgPhaseBlocks := 2,
    dkgMiningWindowStart := 10, dkgMiningWindowEnd := 18,
    dkgBadVotesThreshold := 40, signingActiveQuorumCount := 24,
    keepOldConnections := 25 }

/-- A fully concrete `Params` value used to witness theorems. -/
def sampleParams : Params :=
  { hashGenesisBlock := 7, hashDevnetGenesisBlock := 8,
    nHardForkOne := 1000, nHardForkTwo := 2000, nHardForkThree := 3000,
    nHardForkFour := 4000, nHardForkFive := 5000, nHardForkSix := 100000,
    nHardForkSeven := 200000, nHardForkEight := 300000,
    nTempDevFundIncreaseEnd := 150000, nSubsidyHalvingInterval := 210240,
    nMasternodePaymentsStartBlock := 1500,
    nInstantSendConfirmationsRequired := 6, nInstantSendKeepLock := 24,
    nInstantSendSigsRequired := 6, nInstantSendSigsTotal := 10,
    nBudgetPaymentsStartBlock := 5000, nBudgetPaymentsCycleBlocks := 16616,
    nBudgetPaymentsWindowBlocks := 100, nSuperblockStartBlock := 6000,
    nSuperblockStartHash := 9, nSuperblockCycle := 16616,
    nGovernanceMinQuorum := 10, nGovernanceFilterElements := 20000,
    nOldMasternodeCollateral := 1000, nNewMasternodeCollateral := 5000,
    nMasternodeMinimumConfirmations := 15, DIP0001Height := 7000,
    nIntPhaseTotalBlocks := 210240, nBlocksPerYear := 262800,
    DIP0003Height := 8000, DIP0003EnforcementHeight := 8500,
    DIP0003EnforcementHash := 10, LLMQSwitchHeight := 9000,
    DIP0006EnforcementHeight := 9500, DIP0006EnforcementHash := 11,
    DIP0008Height := 9800, DIP0008EnforcementHeight := 9900,
    DIP0008EnforcementHash := 12, nRuleChangeActivationThreshold := 1916,
    nMinerConfirmationWindow := 2016,
    vDeployments := fun _ => sampleDeployment,
    powLimit := 13, fPowAllowMinDifficultyBlocks := false,
    fPowNoRetargeting := false, nPowTargetTimespan := 86400,
    nPowTargetSpacing := 120, nDifficultyAdjustmentInterval := 720,
    nOldPowTargetSpacing := 120, nNewPowTargetSpacing := 60,
    nMinimumChainWork := 14, defaultAssumeValid := 15,
    llmqs := [(.LLMQ_50_60, sampleLLMQ)],
    llmqChainLocks := .LLMQ_50_60 }

end Consensus

namespace Consensus

/-- C1: for every height `h`, `GetCurrentPowTargetSpacing` returns
`nNewPowTargetSpacing` when `h > nHardForkSix` and `nOldPowTargetSpacing`
whenever `h ≤ nHardForkSix`: the spacing constant is selected purely by
comparing the height against the hard-fork-six height. -/
theorem getCurrentPowTargetSpacing_epoch_selection (p : Params) (h : Int) :
    (h > p.nHardForkSix →
        p.GetCurrentPowTargetSpacing h = p.nNewPowTargetSpacing) ∧
    (h ≤ p.nHardForkSix →
        p.GetCurrentPowTargetSpacing h = p.nOldPowTargetSpacing) := by
  constructor
  · intro hgt
    simp [Params.GetCurrentPowTargetSpacing, hgt]
  · intro hle
    simp [Params.GetCurrentPowTargetSpacing, not_lt_of_le hle]

theorem getCurrentPowTargetSpacing_epoch_selection_witness :
    ((100001 : Int) > sampleParams.nHardForkSix ∧
      sampleParams.GetCurrentPowTargetSpacing 100001 =
        sampleParams.nNewPowTargetSpacing) ∧
    ((99999 : Int) ≤ sampleParams.nHardForkSix ∧
      sampleParams.GetCurrentPowTargetSpacing 99999 =
        sampleParams.nOldPowTargetSpacing) :=
  ⟨⟨by decide,
    (getCurrentPowTargetSpacing_epoch_selection sampleParams 100001).1
      (by decide)⟩,
   ⟨by decide,
    (getCurrentPowTargetSpacing_epoch_selection sampleParams 99999).2
      (by decide)⟩⟩

/-- C2: for every height `h`, `GetCurrentMasternodeCollateral` returns
`nNewMasternodeCollateral` when `h > nHardForkSix` and
`nOldMasternodeCollateral` whenever `h ≤ nHardForkSix`. -/
theorem getCurrentMasternodeCollateral_epoch_selection (p : Params) (h : Int) :
    (h > p.nHardForkSix →
        p.GetCurrentMasternodeCollateral h = p.nNewMasternodeCollateral) ∧
    (h ≤ p.nHardForkSix →
        p.GetCurrentMasternodeCollateral h = p.nOldMasternodeCollateral) := by
  constructor
  · intro hgt
    simp [Params.GetCurrentMasternodeCollateral, hgt]
  · intro hle
    simp [Params.GetCurrentMasternodeCollateral, not_lt_of_le hle]

theorem getCurrentMasternodeCollateral_epoch_selection_witness :
    ((100001 : Int) > sampleParams.nHardForkSix ∧
      sampleParams.GetCurrentMasternodeCollateral 100001 =
        sampleParams.nNewMasternodeCollateral) ∧
    ((100000 : Int) ≤ sampleParams.nHardForkSix ∧
      sampleParams.GetCurrentMasternodeCollateral 100000 =
        sampleParams.nOldMasternodeCollateral) :=
  ⟨⟨by decide,
    (getCurrentMasternodeCollateral_epoch_selection sampleParams 100001).1
      (by decide)⟩,
   ⟨by decide,
    (getCurrentMasternodeCollateral_epoch_selection sampleParams 100000).2
      (by decide)⟩⟩

end Consensus

namespace Consensus

/-- C3: the two selectors switch at the same hard-fork boundary. For any
parameter table whose old and new constants are distinguishable (old
spacing differs from new spacing and old collateral from new collateral),
`GetCurrentPowTargetSpacing` returns the new spacing at a height if and
only if `GetCurrentMasternodeCollateral` returns the new collateral there:
both selectors test the identical condition `h > nHardForkSix`. -/
theorem selectors_switch_together (p : Params) (h : Int)
    (hs : p.nOldPowTargetSpacing ≠ p.nNewPowTargetSpacing)
    (hc : p.nOldMasternodeCollateral ≠ p.nNewMasternodeCollateral) :
    (p.GetCurrentPowTargetSpacing h = p.nNewPowTargetSpacing ↔
      p.GetCurrentMasternodeCollateral h = p.nNewMasternodeCollateral) := by
  unfold Params.GetCurrentPowTargetSpacing Params.GetCurrentMasternodeCollateral
  by_cases hgt : h > p.nHardForkSix
  · simp [hgt]
  · simp [hgt, hs, hc]

theorem selectors_switch_together_witness :
    sampleParams.nOldPowTargetSpacing ≠ sampleParams.nNewPowTargetSpacing ∧
    sampleParams.nOldMasternodeCollateral ≠
      sampleParams.nNewMasternodeCollateral ∧
    (sampleParams.GetCurrentPowTargetSpacing 42 =
        sampleParams.nNewPowTargetSpacing ↔
      sampleParams.GetCurrentMasternodeCollateral 42 =
        sampleParams.nNewMasternodeCollateral) :=
  ⟨by decide, by decide,
   selectors_switch_together sampleParams 42 (by decide) (by decide)⟩

/-- C4: epoch-constant selection is a total, pure, deterministic function
of the height and the parameter table, with no error branch. Stated as:
(a) the result of either selector depends only on `nHardForkSix` and the
two constants it selects between — two parameter tables agreeing on those
fields give identical results at every height regardless of all other
fields (no hidden state, clock or randomness can influence the outcome);
and (b) for every integer height the result is always one of the two
stored constants (totality, no error branch). -/
theorem selectors_pure_deterministic (p q : Params) (h : Int)
    (h6 : p.nHardForkSix = q.nHardForkSix)
    (hos : p.nOldPowTargetSpacing = q.nOldPowTargetSpacing)
    (hns : p.nNewPowTargetSpacing = q.nNewPowTargetSpacing)
    (hoc : p.nOldMasternodeCollateral = q.nOldMasternodeCollateral)
    (hnc : p.nNewMasternodeCollateral = q.nNewMasternodeCollateral) :
    p.GetCurrentPowTargetSpacing h = q.GetCurrentPowTargetSpacing h ∧
    p.GetCurrentMasternodeCollateral h = q.GetCurrentMasternodeCollateral h ∧
    (p.GetCurrentPowTargetSpacing h = p.nNewPowTargetSpacing ∨
      p.GetCurrentPowTargetSpacing h = p.nOldPowTargetSpacing) ∧
    (p.GetCurrentMasternodeCollateral h = p.nNewMasternodeCollateral ∨
      p.GetCurrentMasternodeCollateral h = p.nOldMasternodeCollateral) := by
  unfold Params.GetCurrentPowTargetSpacing Params.GetCurrentMasternodeCollateral
  rw [h6, hos, hns, hoc, hnc]
  by_cases hgt : h > q.nHardForkSix <;> simp [hgt]

/-- `sampleParams` with unrelated fields changed (proof-of-work limit and
the plain spacing fields), agreeing with `sampleParams` on `nHardForkSix`
and the four epoch constants. -/
def sampleParamsVariant : Params :=
  { sampleParams with powLimit := 999, nPowTargetSpacing := 7, nMinimumChainWork := 3 }

theorem selectors_pure_deterministic_witness :
    sampleParamsVariant.GetCurrentPowTargetSpacing 123 =
      sampleParams.GetCurrentPowTargetSpacing 123 ∧
    sampleParamsVariant.GetCurrentMasternodeCollateral 123 =
      sampleParams.GetCurrentMasternodeCollateral 123 ∧
    (sampleParamsVariant.GetCurrentPowTargetSpacing 123 =
        sampleParamsVariant.nNewPowTargetSpacing ∨
      sampleParamsVariant.GetCurrentPowTargetSpacing 123 =
        sampleParamsVariant.nOldPowTargetSpacing) ∧
    (sampleParamsVariant.GetCurrentMasternodeCollateral 123 =
        sampleParamsVariant.nNewMasternodeCollateral ∨
      sampleParamsVariant.GetCurrentMasternodeCollateral 123 =
        sampleParamsVariant.nOldMasternodeCollateral) :=
  selectors_pure_deterministic sampleParamsVariant sampleParams 123
    rfl rfl rfl rfl rfl

/-- C5: at the hard-fork boundary itself the old constants still apply:
at height exactly `nHardForkSix` both selectors return the old constants,
and the new constants are returned from height `nHardForkSix + 1` onward
(the comparison in the source is strict greater-than). -/
theorem hardForkSix_boundary_exclusive (p : Params) (h : Int) :
    (p.GetCurrentPowTargetSpacing p.nHardForkSix = p.nOldPowTargetSpacing ∧
      p.GetCurrentMasternodeCollateral p.nHardForkSix =
        p.nOldMasternodeCollateral) ∧
    (h ≥ p.nHardForkSix + 1 →
      p.GetCurrentPowTargetSpacing h = p.nNewPowTargetSpacing ∧
      p.GetCurrentMasternodeCollateral h = p.nNewMasternodeCollateral) := by
  refine ⟨⟨?_, ?_⟩, ?_⟩
  · simp [Params.GetCurrentPowTargetSpacing]
  · simp [Params.GetCurrentMasternodeCollateral]
  · intro hge
    have hgt : h > p.nHardForkSix := by omega
    exact ⟨by simp [Params.GetCurrentPowTargetSpacing, hgt],
      by simp [Params.GetCurrentMasternodeCollateral, hgt]⟩

theorem hardForkSix_boundary_exclusive_witness :
    (sampleParams.GetCurrentPowTargetSpacing sampleParams.nHardForkSix =
        sampleParams.nOldPowTargetSpacing ∧
      sampleParams.GetCurrentMasternodeCollateral sampleParams.nHardForkSix =
        sampleParams.nOldMasternodeCollateral) ∧
    ((100001 : Int) ≥ sampleParams.nHardForkSix + 1 ∧
      sampleParams.GetCurrentPowTargetSpacing 100001 =
        sampleParams.nNewPowTargetSpacing ∧
      sampleParams.GetCurrentMasternodeCollateral 100001 =
        sampleParams.nNewMasternodeCollateral) :=
  ⟨(hardForkSix_boundary_exclusive sampleParams 100001).1,
   by decide,
   (hardForkSix_boundary_exclusive sampleParams 100001).2 (by decide)⟩

end Consensus

namespace Consensus

/-- Error taxonomy for parameter-table loading (spec §7(a)). -/
inductive LoadError where
  | ConfigInvariantViolation
  deriving DecidableEq

/-- DeploymentSpec invariant (spec §3): `nThreshold ≤ nWindowSize`,
matching the source comment on `nThreshold` ("in the range of
1..nWindowSize"). -/
def BIP9Deployment.checkInvariant (d : BIP9Deployment) : Bool :=
  decide (d.nThreshold ≤ d.nWindowSize)

/-- QuorumTypeSpec invariants (spec §3): `threshold ≤ minSize ≤ size`;
`dkgMiningWindowStart ≥ 5·dkgPhaseBlocks`;
`dkgMiningWindowStart ≤ dkgMiningWindowEnd < dkgInterval`. -/
def LLMQParams.checkInvariants (q : LLMQParams) : Bool :=
  decide (q.threshold ≤ q.minSize) && decide (q.minSize ≤ q.size) &&
  decide (5 * q.dkgPhaseBlocks ≤ q.dkgMiningWindowStart) &&
  decide (q.dkgMiningWindowStart ≤ q.dkgMiningWindowEnd) &&
  decide (q.dkgMiningWindowEnd < q.dkgInterval)

/-- Modelled from the spec: the load-time validation of the parameter
table is not under `src/` (only the `Params` declaration is). Spec §7(a)
says a malformed ParameterTable (threshold > windowSize, etc.) is fatal at
load with `ConfigInvariantViolation`; spec §3 gives the DeploymentSpec
invariant `threshold ≤ windowSize` and the QuorumTypeSpec invariants with
unique mapping keys. The loader accepts the table exactly when every
deployment entry and every LLMQ entry satisfies its invariants and the
LLMQ mapping keys are unique. -/
def loadParams (p : Params) : Except LoadError Params :=
  if allDeploymentPositions.all
        (fun pos => (p.vDeployments pos).checkInvariant) &&
      p.llmqs.all (fun e => e.2.checkInvariants) &&
      decide ((p.llmqs.map Prod.fst).Nodup) then
    Except.ok p
  else
    Except.error LoadError.ConfigInvariantViolation

/-- C6: a parameter table containing a BIP9 deployment whose `nThreshold`
exceeds its `nWindowSize` fails at load with `ConfigInvariantViolation`,
and every deployment entry of a successfully loaded table satisfies
`nThreshold ≤ nWindowSize`. -/
theorem loadParams_deployment_invariant (p : Params) :
    ((∃ pos : DeploymentPos,
        (p.vDeployments pos).nWindowSize < (p.vDeployments pos).nThreshold) →
      loadParams p = Except.error LoadError.ConfigInvariantViolation) ∧
    (∀ q : Params, loadParams p = Except.ok q →
      ∀ pos : DeploymentPos,
        (q.vDeployments pos).nThreshold ≤ (q.vDeployments pos).nWindowSize) := by
  constructor
  · rintro ⟨pos, hvio⟩
    unfold loadParams
    have hfalse : allDeploymentPositions.all
        (fun pos => (p.vDeployments pos).checkInvariant) = false := by
      rw [List.all_eq_false]
      refine ⟨pos, mem_allDeploymentPositions pos, ?_⟩
      simp only [BIP9Deployment.checkInvariant, decide_eq_true_eq]
      omega
    rw [hfalse]
    rfl
  · intro q hok pos
    unfold loadParams at hok
    by_cases hcond : (allDeploymentPositions.all
          (fun pos => (p.vDeployments pos).checkInvariant) &&
        p.llmqs.all (fun e => e.2.checkInvariants) &&
        decide ((p.llmqs.map Prod.fst).Nodup)) = true
    · rw [if_pos hcond] at hok
      cases hok
      obtain ⟨⟨hdep, -⟩, -⟩ := by
        simpa only [Bool.and_eq_true] using hcond
      have := List.all_eq_true.mp hdep pos (mem_allDeploymentPositions pos)
      simpa only [BIP9Deployment.checkInvariant, decide_eq_true_eq] using this
    · rw [if_neg hcond] at hok
      cases hok

/-- A deployment violating the `nThreshold ≤ nWindowSize` invariant. -/
def sampleBadDeployment : BIP9Deployment :=
  { bit := 1, nStartTime := 0, nTimeout := 999999,
    nWindowSize := 100, nThreshold := 101 }

/-- `sampleParams` with every deployment slot violating the invariant. -/
def sampleBadParams : Params :=
  { sampleParams with vDeployments := fun _ => sampleBadDeployment }

theorem loadParams_deployment_invariant_witness :
    ((∃ pos : DeploymentPos,
        (sampleBadParams.vDeployments pos).nWindowSize <
          (sampleBadParams.vDeployments pos).nThreshold) ∧
      loadParams sampleBadParams =
        Except.error LoadError.ConfigInvariantViolation) ∧
    (loadParams sampleParams = Except.ok sampleParams ∧
      ∀ pos : DeploymentPos,
        (sampleParams.vDeployments pos).nThreshold ≤
          (sampleParams.vDeployments pos).nWindowSize) :=
  ⟨⟨⟨.DEPLOYMENT_CSV, by decide⟩,
    (loadParams_deployment_invariant sampleBadParams).1
      ⟨.DEPLOYMENT_CSV, by decide⟩⟩,
   ⟨rfl,
    (loadParams_deployment_invariant sampleParams).2 sampleParams rfl⟩⟩

/-- C7: every `LLMQParams` entry of the `llmqs` mapping of a successfully
loaded parameter table satisfies the configuration invariants
(`threshold ≤ minSize ≤ size`, `dkgMiningWindowStart ≥ 5·dkgPhaseBlocks`,
`dkgMiningWindowStart ≤ dkgMiningWindowEnd < dkgInterval`), and the
mapping keys are unique per quorum type. -/
theorem loadParams_llmq_invariants (p q : Params)
    (hok : loadParams p = Except.ok q) :
    (∀ e ∈ q.llmqs,
      e.2.threshold ≤ e.2.minSize ∧ e.2.minSize ≤ e.2.size ∧
      5 * e.2.dkgPhaseBlocks ≤ e.2.dkgMiningWindowStart ∧
      e.2.dkgMiningWindowStart ≤ e.2.dkgMiningWindowEnd ∧
      e.2.dkgMiningWindowEnd < e.2.dkgInterval) ∧
    (q.llmqs.map Prod.fst).Nodup := by
  unfold loadParams at hok
  by_cases hcond : (allDeploymentPositions.all
        (fun pos => (p.vDeployments pos).checkInvariant) &&
      p.llmqs.all (fun e => e.2.checkInvariants) &&
      decide ((p.llmqs.map Prod.fst).Nodup)) = true
  · rw [if_pos hcond] at hok
    cases hok
    obtain ⟨⟨-, hllmq⟩, hnodup⟩ := by
      simpa only [Bool.and_eq_true] using hcond
    refine ⟨?_, of_decide_eq_true hnodup⟩
    intro e he
    have := List.all_eq_true.mp hllmq e he
    simp only [LLMQParams.checkInvariants, Bool.and_eq_true,
      decide_eq_true_eq] at this
    tauto
  · rw [if_neg hcond] at hok
    cases hok

theorem loadParams_llmq_invariants_witness :
    loadParams sampleParams = Except.ok sampleParams ∧
    ((∀ e ∈ sampleParams.llmqs,
        e.2.threshold ≤ e.2.minSize ∧ e.2.minSize ≤ e.2.size ∧
        5 * e.2.dkgPhaseBlocks ≤ e.2.dkgMiningWindowStart ∧
        e.2.dkgMiningWindowStart ≤ e.2.dkgMiningWindowEnd ∧
        e.2.dkgMiningWindowEnd < e.2.dkgInterval) ∧
      (sampleParams.llmqs.map Prod.fst).Nodup) :=
  ⟨rfl, loadParams_llmq_invariants sampleParams sampleParams rfl⟩

end Consensus

namespace Consensus

/-- A `Params` value whose construction supplies every field except the
four that carry a C++ default member initializer
(`nMinimumDifficultyBlocks`, `nHighSubsidyBlocks`, `nHighSubsidyFactor`,
`llmqForInstantSend`): those are left to their declared defaults, as in a
default-constructed `Consensus::Params`. -/
def defaultInitParams : Params :=
  { hashGenesisBlock := 0, hashDevnetGenesisBlock := 0,
    nHardForkOne := 0, nHardForkTwo := 0, nHardForkThree := 0,
    nHardForkFour := 0, nHardForkFive := 0, nHardForkSix := 0,
    nHardForkSeven := 0, nHardForkEight := 0,
    nTempDevFundIncreaseEnd := 0, nSubsidyHalvingInterval := 0,
    nMasternodePaymentsStartBlock := 0,
    nInstantSendConfirmationsRequired := 0, nInstantSendKeepLock := 0,
    nInstantSendSigsRequired := 0, nInstantSendSigsTotal := 0,
    nBudgetPaymentsStartBlock := 0, nBudgetPaymentsCycleBlocks := 0,
    nBudgetPaymentsWindowBlocks := 0, nSuperblockStartBlock := 0,
    nSuperblockStartHash := 0, nSuperblockCycle := 0,
    nGovernanceMinQuorum := 0, nGovernanceFilterElements := 0,
    nOldMasternodeCollateral := 0, nNewMasternodeCollateral := 0,
    nMasternodeMinimumConfirmations := 0, DIP0001Height := 0,
    nIntPhaseTotalBlocks := 0, nBlocksPerYear := 0,
    DIP0003Height := 0, DIP0003EnforcementHeight := 0,
    DIP0003EnforcementHash := 0, LLMQSwitchHeight := 0,
    DIP0006EnforcementHeight := 0, DIP0006EnforcementHash := 0,
    DIP0008Height := 0, DIP0008EnforcementHeight := 0,
    DIP0008EnforcementHash := 0, nRuleChangeActivationThreshold := 0,
    nMinerConfirmationWindow := 0,
    vDeployments := fun _ => sampleDeployment,
    powLimit := 0, fPowAllowMinDifficultyBlocks := false,
    fPowNoRetargeting := false, nPowTargetTimespan := 0,
    nPowTargetSpacing := 0, nDifficultyAdjustmentInterval := 0,
    nOldPowTargetSpacing := 0, nNewPowTargetSpacing := 0,
    nMinimumChainWork := 0, defaultAssumeValid := 0,
    llmqs := [], llmqChainLocks := .LLMQ_NONE }

/-- C10: `LLMQ_NONE` has the value `0xff`, its value is distinct from that
of every other defined `LLMQType` enumerator, and a `Params` constructed
without setting `llmqForInstantSend` holds `LLMQ_NONE` there: no
InstantSend quorum is configured unless explicitly set. -/
theorem llmq_none_sentinel :
    LLMQType.LLMQ_NONE.val = 0xff ∧
    (∀ t : LLMQType, t ≠ LLMQType.LLMQ_NONE →
      t.val ≠ LLMQType.LLMQ_NONE.val) ∧
    defaultInitParams.llmqForInstantSend = LLMQType.LLMQ_NONE := by
  refine ⟨rfl, ?_, rfl⟩
  intro t ht
  cases t <;> simp_all [LLMQType.val]

theorem llmq_none_sentinel_witness :
    LLMQType.LLMQ_50_60 ≠ LLMQType.LLMQ_NONE ∧
    LLMQType.LLMQ_50_60.val ≠ LLMQType.LLMQ_NONE.val :=
  ⟨by decide, llmq_none_sentinel.2.1 .LLMQ_50_60 (by decide)⟩

end Consensus

namespace Consensus

/-- BIP9 activation states (spec §4.2; `versionbits` in the sources this
header points at, not under `src/`). -/
inductive ThresholdState where
  | DEFINED
  | STARTED
  | LOCKED_IN
  | ACTIVE
  | FAILED
  deriving DecidableEq

/-- The per-window observations the DeploymentStateMachine consumes: the
median-time-past of the window's last block and the count of blocks in the
window signaling the deployment's bit. -/
structure WindowObservation where
  medianTimePast : Int
  signalCount : Int
  deriving DecidableEq

/-- Modelled from the spec: the DeploymentStateMachine transition function
is not under `src/` (only the `BIP9Deployment` descriptor it reads is).
Spec §4.2: DEFINED → STARTED when median-time-past ≥ `nStartTime`
(or DEFINED → FAILED first when median-time-past ≥ `nTimeout`);
STARTED → FAILED when median-time-past ≥ `nTimeout`, the timeout check
taking precedence over lock-in; STARTED → LOCKED_IN when the signal count
reaches `nThreshold` and median-time-past < `nTimeout`;
LOCKED_IN → ACTIVE unconditionally one window later; ACTIVE and FAILED
are terminal. -/
def deploymentNextState (d : BIP9Deployment) (s : ThresholdState)
    (w : WindowObservation) : ThresholdState :=
  match s with
  | .DEFINED =>
    if w.medianTimePast ≥ d.nTimeout then .FAILED
    else if w.medianTimePast ≥ d.nStartTime then .STARTED
    else .DEFINED
  | .STARTED =>
    if w.medianTimePast ≥ d.nTimeout then .FAILED
    else if w.signalCount ≥ d.nThreshold then .LOCKED_IN
    else .STARTED
  | .LOCKED_IN => .ACTIVE
  | .ACTIVE => .ACTIVE
  | .FAILED => .FAILED

/-- C8: timeout takes precedence over lock-in. From STARTED, in any window
whose median-time-past has reached the deployment's `nTimeout` while the
signal count simultaneously reaches `nThreshold`, the next state is
FAILED, never LOCKED_IN. -/
theorem timeout_precedence_over_lockin (d : BIP9Deployment)
    (w : WindowObservation) (htime : w.medianTimePast ≥ d.nTimeout)
    (_hsig : w.signalCount ≥ d.nThreshold) :
    deploymentNextState d .STARTED w = .FAILED ∧
    deploymentNextState d .STARTED w ≠ .LOCKED_IN := by
  have h : deploymentNextState d .STARTED w = .FAILED := by
    simp [deploymentNextState, htime]
  exact ⟨h, by simp [h]⟩

theorem timeout_precedence_over_lockin_witness :
    ((⟨1230767999, 80⟩ : WindowObservation).medianTimePast ≥
        sampleDeployment.nTimeout ∧
      (⟨1230767999, 80⟩ : WindowObservation).signalCount ≥
        sampleDeployment.nThreshold) ∧
    (deploymentNextState sampleDeployment .STARTED ⟨1230767999, 80⟩ =
        .FAILED ∧
      deploymentNextState sampleDeployment .STARTED ⟨1230767999, 80⟩ ≠
        .LOCKED_IN) :=
  ⟨⟨by decide, by decide⟩,
   timeout_precedence_over_lockin sampleDeployment ⟨1230767999, 80⟩
     (by decide) (by decide)⟩

end Consensus

namespace Consensus

/-- A finalized quorum (spec §3): type, quorum hash, the valid member
subset, the aggregated threshold public key and the creation height.
Member ids and keys are opaque here and represented by naturals. -/
structure Quorum where
  type : LLMQType
  quorumHash : Nat
  members : List Nat
  thresholdPublicKey : Nat
  creationHeight : Int
  deriving DecidableEq

/-- Per-type QuorumRegistry state (spec §3, §4.4): the active list bounded
by `signingActiveQuorumCount` and the retained list bounded by
`keepOldConnections`, both ordered by creation ascending (oldest first,
append-only ring-buffer semantics). -/
structure QuorumRegistry where
  active : List Quorum
  retained : List Quorum
  deriving DecidableEq

/-- The registry before any quorum of the type has been finalized. -/
def emptyRegistry : QuorumRegistry := { active := [], retained := [] }

/-- Modelled from the spec: the QuorumRegistry update is not under `src/`
(only the `signingActiveQuorumCount` and `keepOldConnections` bounds it
reads are, in `LLMQParams`). Spec §4.4: `onQuorumFinalized(quorum)`
appends to the type's active list; if the list exceeds
`signingActiveQuorumCount` (here `A`), the oldest entry moves to the
retained list, itself bounded by `keepOldConnections` (here `K`), and an
entry is evicted entirely once the retained list also overflows. -/
def onQuorumFinalized (A K : Nat) (reg : QuorumRegistry) (q : Quorum) :
    QuorumRegistry :=
  if (reg.active ++ [q]).length ≤ A then
    { active := reg.active ++ [q], retained := reg.retained }
  else if (reg.retained ++ (reg.active ++ [q]).take 1).length ≤ K then
    { active := (reg.active ++ [q]).tail,
      retained := reg.retained ++ (reg.active ++ [q]).take 1 }
  else
    { active := (reg.active ++ [q]).tail,
      retained := (reg.retained ++ (reg.active ++ [q]).take 1).tail }

/-- One registry update keeps both lists within their bounds. -/
theorem onQuorumFinalized_preserves_bounds (A K : Nat)
    (reg : QuorumRegistry) (q : Quorum)
    (ha : reg.active.length ≤ A) (hr : reg.retained.length ≤ K) :
    (onQuorumFinalized A K reg q).active.length ≤ A ∧
    (onQuorumFinalized A K reg q).retained.length ≤ K := by
  unfold onQuorumFinalized
  by_cases h1 : (reg.active ++ [q]).length ≤ A
  · rw [if_pos h1]
    exact ⟨h1, hr⟩
  · rw [if_neg h1]
    by_cases h2 : (reg.retained ++ (reg.active ++ [q]).take 1).length ≤ K
    · rw [if_pos h2]
      refine ⟨?_, h2⟩
      simp only [List.length_tail, List.length_append, List.length_singleton]
      simp only [List.length_append, List.length_singleton] at h1
      omega
    · rw [if_neg h2]
      constructor
      · simp only [List.length_tail, List.length_append, List.length_singleton]
        simp only [List.length_append, List.length_singleton] at h1
        omega
      · simp only [List.length_tail, List.length_append, List.length_take,
          List.length_singleton]
        simp only [List.length_append, List.length_take,
          List.length_singleton] at h2
        omega

/-- Folding registry updates from a registry within bounds stays within
bounds. -/
theorem foldl_onQuorumFinalized_bounds (A K : Nat) (qs : List Quorum) :
    ∀ reg : QuorumRegistry,
      reg.active.length ≤ A → reg.retained.length ≤ K →
      (List.foldl (onQuorumFinalized A K) reg qs).active.length ≤ A ∧
      (List.foldl (onQuorumFinalized A K) reg qs).retained.length ≤ K := by
  induction qs with
  | nil => intro reg ha hr; exact ⟨ha, hr⟩
  | cons q qs ih =>
    intro reg ha hr
    obtain ⟨ha2, hr2⟩ := onQuorumFinalized_preserves_bounds A K reg q ha hr
    exact ih (onQuorumFinalized A K reg q) ha2 hr2

/-- As long as the active list stays within bound, updates only append. -/
theorem foldl_onQuorumFinalized_fill (A K : Nat) (qs : List Quorum) :
    ∀ reg : QuorumRegistry, reg.active.length + qs.length ≤ A →
      List.foldl (onQuorumFinalized A K) reg qs =
        { active := reg.active ++ qs, retained := reg.retained } := by
  induction qs with
  | nil =>
    intro reg _
    simp only [List.foldl_nil, List.append_nil]
  | cons q qs ih =>
    intro reg hle
    simp only [List.length_cons] at hle
    have hstep : onQuorumFinalized A K reg q =
        { active := reg.active ++ [q], retained := reg.retained } := by
      unfold onQuorumFinalized
      rw [if_pos (by simp only [List.length_append, List.length_singleton]; omega)]
    rw [List.foldl_cons, hstep,
      ih { active := reg.active ++ [q], retained := reg.retained }
        (by simp only [List.length_append, List.length_singleton]; omega)]
    simp only [List.append_assoc, List.singleton_append]

end Consensus

namespace Consensus

/-- Appending one quorum more than the active bound, starting from an
empty registry, leaves the newest `A` quorums active and moves the oldest
to the retained list. -/
theorem foldl_onQuorumFinalized_overflow (A K : Nat) (qs : List Quorum)
    (hlen : qs.length = A + 1) (hK : 1 ≤ K) :
    List.foldl (onQuorumFinalized A K) emptyRegistry qs =
      { active := qs.drop 1, retained := qs.take 1 } := by
  have hne : qs ≠ [] := by
    intro h
    rw [h] at hlen
    simp at hlen
  have hq : qs.dropLast ++ [qs.getLast hne] = qs :=
    List.dropLast_append_getLast hne
  have hinit : qs.dropLast.length = A := by
    rw [List.length_dropLast, hlen]
    rfl
  conv_lhs => rw [← hq]
  rw [List.foldl_append, List.foldl_cons, List.foldl_nil,
    foldl_onQuorumFinalized_fill A K qs.dropLast emptyRegistry
      (by simp [emptyRegistry, hinit])]
  unfold onQuorumFinalized
  dsimp only [emptyRegistry, List.nil_append]
  have hcond1 : ¬ ((qs.dropLast ++ [qs.getLast hne]).length ≤ A) := by
    simp only [List.length_append, List.length_singleton, hinit]
    omega
  have hcond2 : ((qs.dropLast ++ [qs.getLast hne]).take 1).length ≤ K := by
    have := List.length_take_le 1 (qs.dropLast ++ [qs.getLast hne])
    omega
  rw [if_neg hcond1, if_pos hcond2]
  rw [hq, List.drop_one]

/-- While the retained list is strictly below its bound, no quorum is
evicted by an update: every entry present in either list stays in one of
the two lists. -/
theorem onQuorumFinalized_no_eviction (A K : Nat) (reg : QuorumRegistry)
    (q x : Quorum) (hK : reg.retained.length < K)
    (hx : x ∈ reg.active ∨ x ∈ reg.retained) :
    x ∈ (onQuorumFinalized A K reg q).active ∨
      x ∈ (onQuorumFinalized A K reg q).retained := by
  unfold onQuorumFinalized
  by_cases h1 : (reg.active ++ [q]).length ≤ A
  · rw [if_pos h1]
    rcases hx with hx | hx
    · exact Or.inl (List.mem_append_left _ hx)
    · exact Or.inr hx
  · rw [if_neg h1]
    have h2 : (reg.retained ++ (reg.active ++ [q]).take 1).length ≤ K := by
      have := List.length_take_le 1 (reg.active ++ [q])
      simp only [List.length_append]
      omega
    rw [if_pos h2]
    rcases hx with hx | hx
    · obtain ⟨a, t, hat⟩ : ∃ a t, reg.active ++ [q] = a :: t := by
        cases hcase : reg.active ++ [q] with
        | nil => exact absurd hcase (by simp)
        | cons a t => exact ⟨a, t, rfl⟩
      have hx2 : x ∈ reg.active ++ [q] := List.mem_append_left _ hx
      rw [hat] at hx2 ⊢
      rcases List.mem_cons.mp hx2 with heq | hmem
      · refine Or.inr (List.mem_append_right _ ?_)
        simp [heq]
      · exact Or.inl (by simpa using hmem)
    · exact Or.inr (List.mem_append_left _ hx)

/-- C9: the QuorumRegistry bounds are maintained by every
`onQuorumFinalized` call. (a) After appending any sequence of finalized
quorums of one type to the empty registry, at most
`signingActiveQuorumCount` (here `A`) quorums are active and at most
`keepOldConnections` (here `K`) are retained. (b) Appending exactly
`A + 1` quorums leaves the newest `A` active, with the oldest moved to
the retained list. (c) An entry is fully evicted only when the retained
list also overflows: while the retained list is strictly below `K`, every
entry survives the update in one of the two lists. -/
theorem quorumRegistry_bounds (A K : Nat) :
    (∀ qs : List Quorum,
      (List.foldl (onQuorumFinalized A K) emptyRegistry qs).active.length
          ≤ A ∧
      (List.foldl (onQuorumFinalized A K) emptyRegistry qs).retained.length
          ≤ K) ∧
    (∀ qs : List Quorum, qs.length = A + 1 → 1 ≤ K →
      List.foldl (onQuorumFinalized A K) emptyRegistry qs =
        { active := qs.drop 1, retained := qs.take 1 }) ∧
    (∀ (reg : QuorumRegistry) (q x : Quorum), reg.retained.length < K →
      x ∈ reg.active ∨ x ∈ reg.retained →
      x ∈ (onQuorumFinalized A K reg q).active ∨
        x ∈ (onQuorumFinalized A K reg q).retained) :=
  ⟨fun qs =>
    foldl_onQuorumFinalized_bounds A K qs emptyRegistry
      (by simp [emptyRegistry]) (by simp [emptyRegistry]),
   fun qs h1 h2 => foldl_onQuorumFinalized_overflow A K qs h1 h2,
   fun reg q x h1 h2 => onQuorumFinalized_no_eviction A K reg q x h1 h2⟩

/-- A concrete finalized quorum used in witnesses. -/
def witnessQuorum (n : Nat) : Quorum :=
  { type := .LLMQ_50_60, quorumHash := n, members := [n],
    thresholdPublicKey := n, creationHeight := (n : Int) }

/-- Three concrete quorums, one more than an active bound of 2. -/
def witnessQuorums : List Quorum :=
  [witnessQuorum 1, witnessQuorum 2, witnessQuorum 3]

/-- A concrete registry holding one active quorum and nothing retained. -/
def witnessRegistry : QuorumRegistry :=
  { active := [witnessQuorum 1], retained := [] }

theorem quorumRegistry_bounds_witness :
    ((List.foldl (onQuorumFinalized 2 1) emptyRegistry
        witnessQuorums).active.length ≤ 2 ∧
      (List.foldl (onQuorumFinalized 2 1) emptyRegistry
        witnessQuorums).retained.length ≤ 1) ∧
    (witnessQuorums.length = 2 + 1 ∧ (1 : Nat) ≤ 1 ∧
      List.foldl (onQuorumFinalized 2 1) emptyRegistry witnessQuorums =
        { active := witnessQuorums.drop 1,
          retained := witnessQuorums.take 1 }) ∧
    (witnessRegistry.retained.length < 1 ∧
      (witnessQuorum 1 ∈ witnessRegistry.active ∨
        witnessQuorum 1 ∈ witnessRegistry.retained) ∧
      (witnessQuorum 1 ∈
          (onQuorumFinalized 2 1 witnessRegistry (witnessQuorum 2)).active ∨
        witnessQuorum 1 ∈
          (onQuorumFinalized 2 1 witnessRegistry
            (witnessQuorum 2)).retained)) :=
  ⟨(quorumRegistry_bounds 2 1).1 witnessQuorums,
   ⟨by decide, by decide,
    (quorumRegistry_bounds 2 1).2.1 witnessQuorums (by decide) (by decide)⟩,
   ⟨by decide, Or.inl (by decide),
    (quorumRegistry_bounds 2 1).2.2 witnessRegistry (witnessQuorum 2)
      (witnessQuorum 1) (by decide) (Or.inl (by decide))⟩⟩

end Consensus
